import Mathlib

/-!
Shallow embedding of `src/procs/es256k.rs` from `stronghold_ext`: the four
Es256k procedures (`GenerateKey`, `PublicKey`, `Sign`, `Verify`), their
`use_secret` / `generate` bodies, and the `ProcedureExt` accessors
`input` / `output` together with the per-procedure `source`.

The elliptic-curve algorithm itself (the `Algorithm` trait and its `Es256k`
instance) lives outside `src/`; it is modelled from the spec as an abstract
capability `Algo`.  Byte sequences are `List Nat`; fallible Rust code
returning `Result<_, FatalProcedureError>` becomes `Except String _`, since a
`FatalProcedureError` here is exactly a descriptive string.  Adapter parse
errors are represented by their debug-formatted strings, so the Rust
`format!` with a trailing debug argument becomes string concatenation.
-/

namespace Es256kExt

/-- Modelled from the spec: a Secret Reference (the external store's `Location`
type, absent from `src/`) is an opaque composite key of namespace bytes and
identifier bytes, immutable and compared by value. -/
structure Location where
  vault_path : List Nat
  record_path : List Nat
deriving DecidableEq, Repr

/-- Modelled from the spec: the algorithm capability (the `Algorithm` trait with
its `Es256k` instance, whose implementation is outside `src/`): signing-key
parsing (`from_slice`), verifying-key derivation, serialization of the
verifying key to its canonical compressed encoding (`vk_as_bytes`),
deterministic signing under the default configuration, the signature's
canonical byte encoding, signature parsing (`try_from_slice`), the boolean
verification predicate, key generation (the ambient RNG becomes an explicit
`entropy` argument), and the private key's byte serialization. -/
structure Algo (SK VK Sig : Type) where
  from_slice : List Nat → Except String SK
  to_verifying_key : SK → VK
  vk_as_bytes : VK → List Nat
  sign : SK → List Nat → Sig
  sig_as_bytes : Sig → List Nat
  try_from_slice : List Nat → Except String Sig
  verify_signature : Sig → VK → List Nat → Bool
  generate_signing_key : Nat → SK
  sk_as_bytes : SK → List Nat

/-- Modelled from the spec: the contract the algorithm capability satisfies,
needed for the round-trip property: a signature's canonical byte encoding
parses back to that signature, and the verification predicate accepts a
signature produced by `sign` under the verifying key derived from the same
signing key. -/
structure Algo.Lawful {SK VK Sig : Type} (A : Algo SK VK Sig) : Prop where
  sig_roundtrip : ∀ s : Sig, A.try_from_slice (A.sig_as_bytes s) = .ok s
  verify_sign : ∀ (sk : SK) (m : List Nat),
    A.verify_signature (A.sign sk m) (A.to_verifying_key sk) m = true

/-- The `PublicKey` procedure: one input Secret Reference. -/
structure PublicKey where
  private_key : Location

/-- The `GenerateKey` procedure: one output Secret Reference. -/
structure GenerateKey where
  output : Location

/-- The `Sign` procedure: a plaintext message and one input Secret Reference. -/
structure Sign where
  msg : List Nat
  private_key : Location

/-- The `Verify` procedure: a plaintext message, plaintext signature bytes and
one input Secret Reference. -/
structure Verify where
  msg : List Nat
  signature : List Nat
  private_key : Location

/-- Modelled from the spec: `Products` (from the external engine) pairs the
secret bytes to store with the non-secret output. -/
structure Products (α : Type) where
  secret : List Nat
  output : α

/-- Embedding of `PublicKey::use_secret`: parse the guarded bytes as a signing
key, derive the verifying key, return its byte encoding. -/
def PublicKey.use_secret {SK VK Sig : Type} (self : PublicKey) (A : Algo SK VK Sig)
    (guard : List Nat) : Except String (List Nat) :=
  match A.from_slice guard with
  | .error e => .error ("Es256k: Failed to get signing key from guard " ++ e)
  | .ok sk => .ok (A.vk_as_bytes (A.to_verifying_key sk))

/-- Embedding of `PublicKey::source`. -/
def PublicKey.source (self : PublicKey) : List Location :=
  [self.private_key]

/-- Embedding of `Sign::use_secret`: parse the guarded bytes as a signing key,
sign the message, return the signature's byte encoding. -/
def Sign.use_secret {SK VK Sig : Type} (self : Sign) (A : Algo SK VK Sig)
    (guard : List Nat) : Except String (List Nat) :=
  match A.from_slice guard with
  | .error e => .error ("Es256k: Failed to get signing key from guard " ++ e)
  | .ok sk => .ok (A.sig_as_bytes (A.sign sk self.msg))

/-- Embedding of `Sign::source`. -/
def Sign.source (self : Sign) : List Location :=
  [self.private_key]

/-- Embedding of `Verify::use_secret`: parse the guarded bytes as a signing key,
then parse the supplied signature bytes, derive the verifying key, run the
verification predicate and return the single byte 1 or 0. -/
def Verify.use_secret {SK VK Sig : Type} (self : Verify) (A : Algo SK VK Sig)
    (guard : List Nat) : Except String (List Nat) :=
  match A.from_slice guard with
  | .error e => .error ("Es256k: Failed to get signing key from guard " ++ e)
  | .ok sk =>
    match A.try_from_slice self.signature with
    | .error e => .error ("Es256k: Failed to get signature from vector " ++ e)
    | .ok sig =>
      let vk := A.to_verifying_key sk
      if A.verify_signature sig vk self.msg then .ok [1] else .ok [0]

/-- Embedding of `Verify::source`. -/
def Verify.source (self : Verify) : List Location :=
  [self.private_key]

/-- Embedding of `GenerateKey::generate`: generate a fresh signing key and
return its bytes as the secret product, with unit as the non-secret output. -/
def GenerateKey.generate {SK VK Sig : Type} (self : GenerateKey) (A : Algo SK VK Sig)
    (entropy : Nat) : Except String (Products Unit) :=
  .ok ⟨A.sk_as_bytes (A.generate_signing_key entropy), ()⟩

/-- Embedding of `GenerateKey::target`. -/
def GenerateKey.target (self : GenerateKey) : Location :=
  self.output

/-- Embedding of the `Es256kProcs` enum. -/
inductive Es256kProcs where
  | GenerateKey (p : Es256kExt.GenerateKey)
  | PublicKey (p : Es256kExt.PublicKey)
  | Sign (p : Es256kExt.Sign)
  | Verify (p : Es256kExt.Verify)

/-- Embedding of `ProcedureExt::input` for `Es256kProcs`. -/
def Es256kProcs.input : Es256kProcs → Option Location
  | .GenerateKey _ => none
  | .PublicKey p => some p.private_key
  | .Sign p => some p.private_key
  | .Verify p => some p.private_key

/-- Embedding of `ProcedureExt::output` for `Es256kProcs`. -/
def Es256kProcs.output : Es256kProcs → Option Location
  | .GenerateKey p => some p.output
  | .PublicKey _ => none
  | .Sign _ => none
  | .Verify _ => none

/-- A small concrete instance of the algorithm capability, used to evaluate the
theorems below on explicit inputs. -/
def toyAlgo : Algo Nat Nat (Nat × List Nat) where
  from_slice bs :=
    match bs with
    | [k] => .ok k
    | _ => .error "InvalidLength"
  to_verifying_key sk := sk + 1
  vk_as_bytes vk := [vk]
  sign sk m := (sk + 1, m)
  sig_as_bytes s := s.1 :: s.2
  try_from_slice bs :=
    match bs with
    | v :: rest => .ok (v, rest)
    | [] => .error "Empty"
  verify_signature s vk m := s.1 == vk && s.2 == m
  generate_signing_key n := n
  sk_as_bytes sk := [sk]

/-- The concrete instance satisfies the spec's algorithm contract. -/
theorem toyAlgo_lawful : toyAlgo.Lawful := by
  constructor
  · intro s
    cases s
    rfl
  · intro sk m
    simp [toyAlgo]

/-- A concrete location for evaluating theorems. -/
def testLoc : Location :=
  ⟨[0], [1]⟩

/-- Claim C1: for every guarded buffer whose bytes parse as a valid signing key
and every signature byte sequence that parses as a valid signature,
`Verify.use_secret` returns success with the single byte 1 exactly when the
verification predicate holds for (signature, derived verifying key, message),
and success with the single byte 0 when it does not; a verification mismatch is
never reported as an error. -/
theorem verify_boolean_result {SK VK Sig : Type} (A : Algo SK VK Sig)
    (v : Verify) (guard : List Nat) (sk : SK) (sig : Sig)
    (hk : A.from_slice guard = .ok sk)
    (hs : A.try_from_slice v.signature = .ok sig) :
    v.use_secret A guard =
      .ok (if A.verify_signature sig (A.to_verifying_key sk) v.msg then [1] else [0]) := by
  unfold Verify.use_secret
  rw [hk, hs]
  by_cases h : A.verify_signature sig (A.to_verifying_key sk) v.msg <;> simp [h]

/-- Evaluation of `verify_boolean_result` at a concrete mismatching input: the
result is the successful byte 0, not an error. -/
theorem verify_boolean_result_witness :
    (Verify.mk [9] [10, 9] testLoc).use_secret toyAlgo [5] = .ok [0] :=
  (verify_boolean_result toyAlgo ⟨[9], [10, 9], testLoc⟩ [5] 5 (10, [9]) rfl rfl).trans rfl

/-- Claim C2: signing a message with a buffer that parses as a valid signing key
and then verifying the resulting signature bytes against the same message and
the same buffer yields the success byte 1. -/
theorem sign_verify_roundtrip {SK VK Sig : Type} (A : Algo SK VK Sig)
    (hA : A.Lawful) (s : Sign) (v : Verify) (guard : List Nat) (sk : SK)
    (sigBytes : List Nat)
    (hk : A.from_slice guard = .ok sk)
    (hs : s.use_secret A guard = .ok sigBytes)
    (hmsg : v.msg = s.msg) (hsig : v.signature = sigBytes) :
    v.use_secret A guard = .ok [1] := by
  unfold Sign.use_secret at hs
  rw [hk] at hs
  have hb : sigBytes = A.sig_as_bytes (A.sign sk s.msg) := by
    cases hs
    rfl
  unfold Verify.use_secret
  rw [hk, hsig, hb, hA.sig_roundtrip, hmsg]
  simp [hA.verify_sign sk s.msg]

/-- Evaluation of `sign_verify_roundtrip` at a concrete key and message. -/
theorem sign_verify_roundtrip_witness :
    (Verify.mk [7, 8] [6, 7, 8] testLoc).use_secret toyAlgo [5] = .ok [1] :=
  sign_verify_roundtrip toyAlgo toyAlgo_lawful ⟨[7, 8], testLoc⟩
    ⟨[7, 8], [6, 7, 8], testLoc⟩ [5] 5 [6, 7, 8] rfl rfl rfl rfl

/-- Claim C3: for every guarded buffer whose bytes do not parse as a valid
signing key, each of `PublicKey.use_secret`, `Sign.use_secret` and
`Verify.use_secret` returns the malformed-key failure (so no default or zero
output is ever produced; the embedding is total, so no panic is possible). -/
theorem malformed_key_fails {SK VK Sig : Type} (A : Algo SK VK Sig)
    (p : PublicKey) (s : Sign) (v : Verify) (guard : List Nat) (e : String)
    (he : A.from_slice guard = .error e) :
    p.use_secret A guard = .error ("Es256k: Failed to get signing key from guard " ++ e) ∧
    s.use_secret A guard = .error ("Es256k: Failed to get signing key from guard " ++ e) ∧
    v.use_secret A guard = .error ("Es256k: Failed to get signing key from guard " ++ e) := by
  refine ⟨?_, ?_, ?_⟩ <;>
    simp [PublicKey.use_secret, Sign.use_secret, Verify.use_secret, he]

/-- Evaluation of `malformed_key_fails` on a concrete malformed buffer. -/
theorem malformed_key_fails_witness :
    (PublicKey.mk testLoc).use_secret toyAlgo [1, 2] =
        .error ("Es256k: Failed to get signing key from guard " ++ "InvalidLength") ∧
    (Sign.mk [3] testLoc).use_secret toyAlgo [1, 2] =
        .error ("Es256k: Failed to get signing key from guard " ++ "InvalidLength") ∧
    (Verify.mk [3] [4] testLoc).use_secret toyAlgo [1, 2] =
        .error ("Es256k: Failed to get signing key from guard " ++ "InvalidLength") :=
  malformed_key_fails toyAlgo ⟨testLoc⟩ ⟨[3], testLoc⟩ ⟨[3], [4], testLoc⟩
    [1, 2] "InvalidLength" rfl

/-- Claim C4: in `Verify.use_secret` the signing key is parsed first and the
signature bytes second: with a valid key and malformed signature bytes the
procedure fails with the distinct malformed-signature error and never returns a
success value such as the byte 0; and whenever the key bytes are malformed the
key error is reported, regardless of the signature bytes. -/
theorem verify_malformed_signature_fails {SK VK Sig : Type} (A : Algo SK VK Sig)
    (v : Verify) (guard : List Nat) (sk : SK) (e : String)
    (hk : A.from_slice guard = .ok sk)
    (hs : A.try_from_slice v.signature = .error e) :
    v.use_secret A guard = .error ("Es256k: Failed to get signature from vector " ++ e) ∧
    (∀ out : List Nat, v.use_secret A guard ≠ .ok out) ∧
    (∀ (g : List Nat) (eK : String), A.from_slice g = .error eK →
      v.use_secret A g = .error ("Es256k: Failed to get signing key from guard " ++ eK)) := by
  refine ⟨?_, ?_, ?_⟩
  · simp [Verify.use_secret, hk, hs]
  · intro out
    simp [Verify.use_secret, hk, hs]
  · intro g eK heK
    simp [Verify.use_secret, heK]

/-- Evaluation of `verify_malformed_signature_fails` on a valid key with empty
(unparsable) signature bytes. -/
theorem verify_malformed_signature_fails_witness :
    (Verify.mk [1] [] testLoc).use_secret toyAlgo [5] =
      .error ("Es256k: Failed to get signature from vector " ++ "Empty") :=
  (verify_malformed_signature_fails toyAlgo ⟨[1], [], testLoc⟩ [5] 5 "Empty" rfl rfl).1

/-- Claim C5: for every guarded buffer whose bytes parse as a valid signing key,
`PublicKey.use_secret` returns exactly the canonical compressed byte encoding
of the verifying key derived from that signing key. -/
theorem public_key_canonical {SK VK Sig : Type} (A : Algo SK VK Sig)
    (p : PublicKey) (guard : List Nat) (sk : SK)
    (hk : A.from_slice guard = .ok sk) :
    p.use_secret A guard = .ok (A.vk_as_bytes (A.to_verifying_key sk)) := by
  simp [PublicKey.use_secret, hk]

/-- Evaluation of `public_key_canonical` on a concrete key. -/
theorem public_key_canonical_witness :
    (PublicKey.mk testLoc).use_secret toyAlgo [5] = .ok [6] :=
  (public_key_canonical toyAlgo ⟨testLoc⟩ [5] 5 rfl).trans rfl

/-- Claim C6: for every guarded buffer whose bytes parse as a valid signing key
and every message, `Sign.use_secret` succeeds and returns the canonical byte
encoding of the deterministic signature of the message under that key; any two
runs whose buffers parse to the same key (in particular, runs with identical
buffer contents) return identical bytes. -/
theorem sign_deterministic {SK VK Sig : Type} (A : Algo SK VK Sig)
    (s : Sign) (guard : List Nat) (sk : SK)
    (hk : A.from_slice guard = .ok sk) :
    s.use_secret A guard = .ok (A.sig_as_bytes (A.sign sk s.msg)) ∧
    (∀ g2 : List Nat, A.from_slice g2 = .ok sk →
      s.use_secret A g2 = s.use_secret A guard) := by
  constructor
  · simp [Sign.use_secret, hk]
  · intro g2 h2
    simp [Sign.use_secret, hk, h2]

/-- Evaluation of `sign_deterministic` on a concrete key and message. -/
theorem sign_deterministic_witness :
    (Sign.mk [7, 8] testLoc).use_secret toyAlgo [5] = .ok [6, 7, 8] :=
  ((sign_deterministic toyAlgo ⟨[7, 8], testLoc⟩ [5] 5 rfl).1).trans rfl

/-- Claim C7: whenever `GenerateKey.generate` succeeds, its secret product is
the freshly generated private key's bytes and its non-secret output is the
unit value, so the non-secret channel never carries the secret bytes. -/
theorem generate_products {SK VK Sig : Type} (A : Algo SK VK Sig)
    (g : GenerateKey) (entropy : Nat) (p : Products Unit)
    (h : g.generate A entropy = .ok p) :
    p.secret = A.sk_as_bytes (A.generate_signing_key entropy) ∧ p.output = () := by
  unfold GenerateKey.generate at h
  cases h
  exact ⟨rfl, rfl⟩

/-- Evaluation of `generate_products` at a concrete entropy value. -/
theorem generate_products_witness :
    (Products.secret (α := Unit) ⟨[3], ()⟩ = toyAlgo.sk_as_bytes (toyAlgo.generate_signing_key 3)) ∧
    Products.output (α := Unit) ⟨[3], ()⟩ = () :=
  generate_products toyAlgo ⟨testLoc⟩ 3 ⟨[3], ()⟩ rfl

/-- Claim C8: `input` is `none` for `GenerateKey` and the private-key location
for `PublicKey`, `Sign` and `Verify`; `output` is the output location for
`GenerateKey` and `none` for the three read-only variants; and `source` on
`PublicKey`, `Sign` and `Verify` is exactly the one-element list holding the
private key's location. -/
theorem procs_wiring :
    ∀ (g : GenerateKey) (p : PublicKey) (s : Sign) (v : Verify),
      (Es256kProcs.GenerateKey g).input = none ∧
      (Es256kProcs.PublicKey p).input = some p.private_key ∧
      (Es256kProcs.Sign s).input = some s.private_key ∧
      (Es256kProcs.Verify v).input = some v.private_key ∧
      (Es256kProcs.GenerateKey g).output = some g.output ∧
      (Es256kProcs.PublicKey p).output = none ∧
      (Es256kProcs.Sign s).output = none ∧
      (Es256kProcs.Verify v).output = none ∧
      p.source = [p.private_key] ∧
      s.source = [s.private_key] ∧
      v.source = [v.private_key] := by
  intro g p s v
  exact ⟨rfl, rfl, rfl, rfl, rfl, rfl, rfl, rfl, rfl, rfl, rfl⟩

/-- Claim C9: every error value produced by `PublicKey.use_secret`,
`Sign.use_secret` or `Verify.use_secret` is independent of the raw guarded
bytes.  On the malformed-key path, two buffers with different secret contents
but the same adapter parse failure yield identical errors from all three
procedures, and that error is the fixed operation tag concatenated with the
failure description.  On `Verify`'s malformed-signature path, two buffers
holding different valid keys yield identical errors, equal to the fixed
signature tag concatenated with the signature parse failure, which depends
only on the non-secret signature bytes and not on the key at all. -/
theorem errors_independent_of_secret_bytes {SK VK Sig : Type} (A : Algo SK VK Sig)
    (p : PublicKey) (s : Sign) (v : Verify) (g1 g2 : List Nat) :
    (∀ e : String, A.from_slice g1 = .error e → A.from_slice g2 = .error e →
      p.use_secret A g1 = p.use_secret A g2 ∧
      s.use_secret A g1 = s.use_secret A g2 ∧
      v.use_secret A g1 = v.use_secret A g2 ∧
      p.use_secret A g1 = .error ("Es256k: Failed to get signing key from guard " ++ e)) ∧
    (∀ (sk1 sk2 : SK) (e : String),
      A.from_slice g1 = .ok sk1 → A.from_slice g2 = .ok sk2 →
      A.try_from_slice v.signature = .error e →
      v.use_secret A g1 = v.use_secret A g2 ∧
      v.use_secret A g1 = .error ("Es256k: Failed to get signature from vector " ++ e)) := by
  constructor
  · intro e h1 h2
    refine ⟨?_, ?_, ?_, ?_⟩ <;>
      simp [PublicKey.use_secret, Sign.use_secret, Verify.use_secret, h1, h2]
  · intro sk1 sk2 e hk1 hk2 hs
    refine ⟨?_, ?_⟩ <;> simp [Verify.use_secret, hk1, hk2, hs]

/-- Evaluation of `errors_independent_of_secret_bytes`: two malformed buffers
with different contents give the same malformed-key error, and two buffers
holding different valid keys give the same malformed-signature error, equal to
the fixed tag plus the parse failure of the empty signature bytes. -/
theorem errors_independent_of_secret_bytes_witness :
    ((PublicKey.mk testLoc).use_secret toyAlgo [] =
      (PublicKey.mk testLoc).use_secret toyAlgo [9, 9]) ∧
    ((Verify.mk [3] [] testLoc).use_secret toyAlgo [5] =
      (Verify.mk [3] [] testLoc).use_secret toyAlgo [6]) ∧
    ((Verify.mk [3] [] testLoc).use_secret toyAlgo [5] =
      .error ("Es256k: Failed to get signature from vector " ++ "Empty")) :=
  ⟨(((errors_independent_of_secret_bytes toyAlgo ⟨testLoc⟩ ⟨[3], testLoc⟩
      ⟨[3], [], testLoc⟩ [] [9, 9]).1) "InvalidLength" rfl rfl).1,
    (((errors_independent_of_secret_bytes toyAlgo ⟨testLoc⟩ ⟨[3], testLoc⟩
      ⟨[3], [], testLoc⟩ [5] [6]).2) 5 6 "Empty" rfl rfl rfl).1,
    (((errors_independent_of_secret_bytes toyAlgo ⟨testLoc⟩ ⟨[3], testLoc⟩
      ⟨[3], [], testLoc⟩ [5] [6]).2) 5 6 "Empty" rfl rfl rfl).2⟩

/-- Claim C10: for every `Es256kProcs` value exactly one of `input` and
`output` is `some`, and the variant with an output location is exactly
`GenerateKey`. -/
theorem procs_io_exclusive (proc : Es256kProcs) :
    ((proc.input.isSome = true ∧ proc.output.isSome = false) ∨
      (proc.input.isSome = false ∧ proc.output.isSome = true)) ∧
    (proc.output.isSome = true ↔ ∃ g, proc = .GenerateKey g) := by
  cases proc with
  | GenerateKey g =>
    exact ⟨Or.inr ⟨rfl, rfl⟩, ⟨fun _ => ⟨g, rfl⟩, fun _ => rfl⟩⟩
  | PublicKey p =>
    refine ⟨Or.inl ⟨rfl, rfl⟩, ⟨fun h => by simp [Es256kProcs.output] at h, fun h => ?_⟩⟩
    obtain ⟨g, hg⟩ := h
    cases hg
  | Sign s =>
    refine ⟨Or.inl ⟨rfl, rfl⟩, ⟨fun h => by simp [Es256kProcs.output] at h, fun h => ?_⟩⟩
    obtain ⟨g, hg⟩ := h
    cases hg
  | Verify v =>
    refine ⟨Or.inl ⟨rfl, rfl⟩, ⟨fun h => by simp [Es256kProcs.output] at h, fun h => ?_⟩⟩
    obtain ⟨g, hg⟩ := h
    cases hg

end Es256kExt
